import Mathlib

/-
Shallow embedding of `src/server.js`, an Express OTP service backed by
Firestore and nodemailer.

Modelling decisions:
* JSON request values (`email`, `otp`, `uid` from `req.body`) are `Option JSVal`
  (`none` = the field is absent); `JSVal` covers the string/number values the
  endpoints actually handle, and JavaScript truthiness is `truthy`.
* The Firestore `users` collection is an association list from document id to
  document.  `where(f, '==', v).limit(1)` returns the first match in store
  order; `set(..., {merge:true})` creates the document when absent;
  `update` rewrites an existing document.
* Timestamps are `Int` milliseconds; `admin.firestore.Timestamp` values are
  objects and hence always truthy, so a present `otpExpiresAt` is modelled as
  `some t`.
* `db.collection('users').doc(p)` throws (Firestore SDK resource-path
  validation) unless `p` is a non-empty string: `docIdOf` returns `none`
  exactly when line 61 / line 100 of the source would throw, and the
  surrounding `try/catch` turns that into the 500 response.
* External outcomes are parameters: `mailErr` is the result of
  `transporter.sendMail` (`none` = delivered, `some msg` = threw with message
  `msg`), `authOk` the result of `admin.auth().updateUser`.
* Side effects are recorded in an `Effect` trace (email sends, store reads,
  queries, writes, the auth-provider call, logged errors).
-/

inductive JSVal where
  | str : String → JSVal
  | num : Int → JSVal
deriving DecidableEq, Repr

/-- JavaScript `.toString()` / template-literal coercion for the values we
model: a string is itself, a number renders in decimal. -/
def JSVal.jsToString : JSVal → String
  | .str s => s
  | .num n => ToString.toString n

/-- JavaScript truthiness of a present value: `""` and `0` are falsy. -/
def JSVal.truthyV : JSVal → Bool
  | .str s => !s.isEmpty
  | .num n => n != 0

/-- JavaScript truthiness of a possibly-absent request field
(`!x` in the source is `!(truthy x)` here). -/
def truthy : Option JSVal → Bool
  | none => false
  | some v => v.truthyV

/-- A document of the Firestore `users` collection: exactly the fields
`server.js` reads or writes.  `none` = the field is absent from the
document. -/
structure UserDoc where
  uid : Option JSVal
  email : Option JSVal
  otp : Option JSVal
  otpExpiresAt : Option Int
  emailVerified : Option Bool
  verifiedAt : Option Int
deriving DecidableEq, Repr

/-- A document with no fields set. -/
def emptyDoc : UserDoc :=
  { uid := none, email := none, otp := none, otpExpiresAt := none,
    emailVerified := none, verifiedAt := none }

/-- The `users` collection: document id ↦ document, in store order. -/
abbrev Store := List (String × UserDoc)

/-- Lookup `db.collection('users').doc(id).get()`: the document with the given id,
if it exists. -/
def getById (st : Store) (id : String) : Option UserDoc :=
  (st.find? (fun p => p.1 == id)).map (fun p => p.2)

/-- Query `db.collection('users').where('uid', '==', v).limit(1).get()`:
the first document whose `uid` field equals `v`. -/
def queryUidEq (st : Store) (v : JSVal) : Option (String × UserDoc) :=
  st.find? (fun p => p.2.uid == some v)

/-- Query `db.collection('users').where('email', '==', v).limit(1).get()`:
the first document whose `email` field equals `v`. -/
def queryEmailEq (st : Store) (v : JSVal) : Option (String × UserDoc) :=
  st.find? (fun p => p.2.email == some v)

/-- Path validation of `db.collection('users').doc(uid)`: succeeds with the document path only
when `uid` is a non-empty string; otherwise the SDK throws. -/
def docIdOf : Option JSVal → Option String
  | some (.str s) => if s.isEmpty then none else some s
  | _ => none

/-- The message of the error the Firestore SDK throws from `.doc(uid)` when
`uid` is not a non-empty string (caught by the endpoint's `catch`). -/
def docPathErr : String :=
  "Value for argument \"documentPath\" is not a valid resource path. Path must be a non-empty string."

/-- One observable side effect of a request handler. -/
inductive Effect where
  | emailSend : String → String → Effect
  | storeGet : String → Effect
  | storeQuery : String → JSVal → Effect
  | storeSet : String → Effect
  | storeUpdate : String → Effect
  | authUpdate : String → Effect
  | logError : String → Effect
deriving DecidableEq, Repr

/-- The JSON body sent back to the caller: `res.json({success:true, message, user?})`
or `errorResponse(res, status, message)` = `{success:false, error: message}`. -/
inductive Response where
  | success : String → Option (JSVal × JSVal) → Response
  | failure : Nat → String → Response
deriving DecidableEq, Repr

/-- Outcome of one request: the response, the store after the request, and the
trace of side effects performed. -/
structure OpResult where
  response : Response
  store : Store
  effects : List Effect
deriving DecidableEq, Repr

/-- Rewrite the document at `id` (if present) with `f`, leaving every other
document unchanged. -/
def mapAt (st : Store) (id : String) (f : UserDoc → UserDoc) : Store :=
  st.map (fun p => if p.1 == id then (p.1, f p.2) else p)

/-- The field merge of `sendOtp` line 81:
`{ otp: otp.toString(), otpExpiresAt: expiryAt }`, preserving other fields. -/
def mergeOtpInto (d : UserDoc) (code : String) (expiry : Int) : UserDoc :=
  { d with otp := some (JSVal.str code), otpExpiresAt := some expiry }

/-- Write `userDocRef.set({otp, otpExpiresAt}, {merge:true})`: merges into the
document at `id`, creating it (with only those two fields) when absent. -/
def setMergeOtp (st : Store) (id : String) (code : String) (expiry : Int) : Store :=
  if (getById st id).isSome then mapAt st id (fun d => mergeOtpInto d code expiry)
  else st ++ [(id, mergeOtpInto emptyDoc code expiry)]

/-- The field update of `verifyOtp` lines 136-141: set `emailVerified`,
delete `otp` and `otpExpiresAt`, set `verifiedAt` to the server timestamp. -/
def markVerified (now : Int) (d : UserDoc) : UserDoc :=
  { d with
    emailVerified := some true,
    otp := none,
    otpExpiresAt := none,
    verifiedAt := some now }

/-- Write `userDocRef.update({emailVerified:true, otp:delete, otpExpiresAt:delete,
verifiedAt:serverTimestamp})` applied to the (existing) document at `id`. -/
def updateVerified (st : Store) (id : String) (now : Int) : Store :=
  mapAt st id (markVerified now)

/-- Expiry delta: `otpExpiresAt` is `now + 5 * 60 * 1000` (line 79). -/
def otpTtlMillis : Int := 5 * 60 * 1000

/-- The `POST /sendOtp` handler (`server.js` lines 45-91).

Control flow of the source: missing-field check; `sendMail` (a throw is
caught as a 500); `doc(uid)` (throws when `uid` is not a non-empty string —
note the reference is otherwise always a truthy object, so the
`if (!userDocRef)` email-lookup branch of line 73 can never run); when the
document `uid` exists, merge into it; else if a document has field
`uid == uid`, merge into that one; else merge into (and thus create)
document `uid`. -/
def sendOtp (st : Store) (now : Int) (mailErr : Option String)
    (email otp uid : Option JSVal) : OpResult :=
  if !truthy email || !truthy otp then
    { response := Response.failure 400 "Missing email or otp", store := st, effects := [] }
  else
    let e := (email.getD (JSVal.str (""))).jsToString
    let o := (otp.getD (JSVal.str (""))).jsToString
    let sendEff := Effect.emailSend e o
    match mailErr with
    | some msg =>
        { response := Response.failure 500 ("Failed to send OTP. " ++ msg),
          store := st, effects := [sendEff] }
    | none =>
      match docIdOf uid with
      | none =>
          { response := Response.failure 500 ("Failed to send OTP. " ++ docPathErr),
            store := st, effects := [sendEff] }
      | some id =>
        let expiry := now + otpTtlMillis
        match getById st id with
        | some _ =>
            { response := Response.success ("OTP sent successfully") none,
              store := setMergeOtp st id o expiry,
              effects := [sendEff, Effect.storeGet id, Effect.storeSet id] }
        | none =>
          match queryUidEq st (JSVal.str id) with
          | some r =>
              { response := Response.success ("OTP sent successfully") none,
                store := setMergeOtp st r.1 o expiry,
                effects := [sendEff, Effect.storeGet id,
                  Effect.storeQuery ("uid") (JSVal.str id), Effect.storeSet r.1] }
          | none =>
              { response := Response.success ("OTP sent successfully") none,
                store := setMergeOtp st id o expiry,
                effects := [sendEff, Effect.storeGet id,
                  Effect.storeQuery ("uid") (JSVal.str id), Effect.storeSet id] }

/-- The user-document resolution of `verifyOtp` lines 100-115: the document
with id `id`; else the first document with field `uid == id`; else the first
document with field `email == email`. -/
def resolveVerify (st : Store) (id : String) (email : JSVal) :
    Option (String × UserDoc) :=
  match getById st id with
  | some d => some (id, d)
  | none =>
    match queryUidEq st (JSVal.str id) with
    | some r => some r
    | none => queryEmailEq st email

/-- The store reads performed by that resolution. -/
def resolveVerifyEffects (st : Store) (id : String) (email : JSVal) : List Effect :=
  match getById st id with
  | some _ => [Effect.storeGet id]
  | none =>
    match queryUidEq st (JSVal.str id) with
    | some _ => [Effect.storeGet id, Effect.storeQuery ("uid") (JSVal.str id)]
    | none => [Effect.storeGet id, Effect.storeQuery ("uid") (JSVal.str id),
        Effect.storeQuery ("email") email]

/-- The `try { await admin.auth().updateUser(uid, {emailVerified:true}) }
catch (authErr) { console.error(...) }` block of lines 144-149: the update is
attempted once; a failure is caught and logged, and the flow proceeds
unchanged either way. -/
def bestEffortAuthUpdate (authOk : Bool) (id : String) : List Effect :=
  if authOk then [Effect.authUpdate id]
  else [Effect.authUpdate id, Effect.logError ("Failed to update auth user:")]

/-- The `POST /verifyOtp` handler (`server.js` lines 94-156).

Control flow of the source: missing-field check; `doc(uid)` (throws when
`uid` is a truthy non-string, caught as a 500); resolution by id, then `uid`
field, then `email` field; 400 when unresolved; 400 when the stored `otp` is
falsy or `otpExpiresAt` absent; 400 `expired` when now is strictly after the
expiry; 400 when the string forms of stored and submitted codes differ; else
update the document (set verified, delete the pair), attempt the best-effort
auth update, and answer success echoing `email` and `uid`. -/
def verifyOtp (st : Store) (now : Int) (authOk : Bool)
    (email otp uid : Option JSVal) : OpResult :=
  if !truthy email || !truthy otp || !truthy uid then
    { response := Response.failure 400 "Missing email, uid, or otp", store := st, effects := [] }
  else
    let e := email.getD (JSVal.str (""))
    let o := otp.getD (JSVal.str (""))
    let u := uid.getD (JSVal.str (""))
    match docIdOf uid with
    | none =>
        { response := Response.failure 500 ("Failed to verify OTP. " ++ docPathErr),
          store := st, effects := [] }
    | some id =>
      let reffs := resolveVerifyEffects st id e
      match resolveVerify st id e with
      | none =>
          { response := Response.failure 400 "User not found in Firestore",
            store := st, effects := reffs }
      | some rd =>
        if !truthy rd.2.otp then
          { response := Response.failure 400 "OTP not found. Request a new OTP",
            store := st, effects := reffs }
        else
          let c := rd.2.otp.getD (JSVal.str (""))
          match rd.2.otpExpiresAt with
          | none =>
              { response := Response.failure 400 "OTP expiry missing. Request new OTP",
                store := st, effects := reffs }
          | some t =>
            if t < now then
              { response := Response.failure 400 "OTP expired. Request new OTP",
                store := st, effects := reffs }
            else if c.jsToString != o.jsToString then
              { response := Response.failure 400 "Invalid OTP",
                store := st, effects := reffs }
            else
              { response := Response.success ("Email verified successfully") (some (e, u)),
                store := updateVerified st rd.1 now,
                effects := reffs ++ [Effect.storeUpdate rd.1] ++ bestEffortAuthUpdate authOk id }

/-! ### Store lemmas -/

theorem isEmpty_false_of_ne (s : String) (h : s ≠ "") : s.isEmpty = false := by
  cases hc : s.isEmpty
  · rfl
  · exact absurd ((String.isEmpty_iff s).mp hc) h

theorem getById_mapAt (st : Store) (id : String) (f : UserDoc → UserDoc) :
    getById (mapAt st id f) id = (getById st id).map f := by
  induction st with
  | nil => rfl
  | cons p tl ih =>
    unfold getById mapAt at ih ⊢
    rw [List.map_cons, List.find?, List.find?]
    cases hb : (p.1 == id)
    · simp only [hb, Bool.false_eq_true, if_false]
      exact ih
    · simp [hb]

theorem getById_setMergeOtp (st : Store) (id : String) (c : String) (t : Int)
    (d : UserDoc) (h : getById st id = some d) :
    getById (setMergeOtp st id c t) id = some (mergeOtpInto d c t) := by
  unfold setMergeOtp
  rw [h]
  simp only [Option.isSome_some, if_pos]
  rw [getById_mapAt, h, Option.map_some']

theorem getById_updateVerified (st : Store) (id : String) (now : Int) :
    getById (updateVerified st id now) id = (getById st id).map (markVerified now) :=
  getById_mapAt st id (markVerified now)

theorem verifyOtp_success_eq (st : Store) (now : Int) (authOk : Bool) (e o c : JSVal)
    (id : String) (d : UserDoc) (t : Int)
    (he : e.truthyV = true) (ho : o.truthyV = true) (hid : id ≠ "")
    (hfind : getById st id = some d) (hotp : d.otp = some c) (hct : c.truthyV = true)
    (hexp : d.otpExpiresAt = some t) (hnow : ¬ t < now)
    (hmatch : c.jsToString = o.jsToString) :
    verifyOtp st now authOk (some e) (some o) (some (JSVal.str id)) =
      { response := Response.success ("Email verified successfully") (some (e, JSVal.str id)),
        store := updateVerified st id now,
        effects := [Effect.storeGet id, Effect.storeUpdate id] ++ bestEffortAuthUpdate authOk id } := by
  have hu : (JSVal.str id).truthyV = true := by
    simp [JSVal.truthyV, isEmpty_false_of_ne id hid]
  have hdoc : docIdOf (some (JSVal.str id)) = some id := by
    simp [docIdOf, isEmpty_false_of_ne id hid]
  unfold verifyOtp
  simp [truthy, he, ho, hu, hdoc, resolveVerify, resolveVerifyEffects, hfind, hotp,
    hexp, hct, hnow, hmatch]

/-- Symbolic evaluation of `verifyOtp` when the record resolved by its primary
key has no truthy stored `otp`. -/
theorem verifyOtp_noPending_eq (st : Store) (now : Int) (authOk : Bool) (e o : JSVal)
    (id : String) (d : UserDoc)
    (he : e.truthyV = true) (ho : o.truthyV = true) (hid : id ≠ "")
    (hfind : getById st id = some d) (hotp : truthy d.otp = false) :
    (verifyOtp st now authOk (some e) (some o) (some (JSVal.str id))).response =
      Response.failure 400 "OTP not found. Request a new OTP" := by
  have hu : (JSVal.str id).truthyV = true := by
    simp [JSVal.truthyV, isEmpty_false_of_ne id hid]
  have hdoc : docIdOf (some (JSVal.str id)) = some id := by
    simp [docIdOf, isEmpty_false_of_ne id hid]
  unfold verifyOtp
  cases hdo : d.otp with
  | none => simp [truthy, he, ho, hu, hdoc, resolveVerify, hfind, hdo]
  | some v =>
    rw [hdo] at hotp
    simp only [truthy] at hotp
    simp [truthy, he, ho, hu, hdoc, resolveVerify, hfind, hdo, hotp]

/-- Claim C1: single-use consumption.  If the record with primary key `id` holds a
truthy pending code `c` and an expiry `t`, the submitted code's string form
equals the stored one's, and the attempt happens strictly before `t`, then
verification succeeds echoing the email and uid; the same record update sets
`emailVerified` to `true` and `verifiedAt` and clears both `otp` and
`otpExpiresAt`; and a second verification attempt with the same code (at any
later time, with any auth-provider outcome) fails with the no-pending-OTP
error. -/
theorem single_use_consumption (st : Store) (now now2 : Int) (authOk authOk2 : Bool)
    (e o c : JSVal) (id : String) (d : UserDoc) (t : Int)
    (he : e.truthyV = true) (ho : o.truthyV = true) (hid : id ≠ "")
    (hfind : getById st id = some d) (hotp : d.otp = some c) (hct : c.truthyV = true)
    (hexp : d.otpExpiresAt = some t) (hnow : now < t)
    (hmatch : c.jsToString = o.jsToString) :
    (verifyOtp st now authOk (some e) (some o) (some (JSVal.str id))).response =
      Response.success ("Email verified successfully") (some (e, JSVal.str id)) ∧
    getById (verifyOtp st now authOk (some e) (some o) (some (JSVal.str id))).store id =
      some { d with
        emailVerified := some true,
        otp := none,
        otpExpiresAt := none,
        verifiedAt := some now } ∧
    (verifyOtp (verifyOtp st now authOk (some e) (some o) (some (JSVal.str id))).store
        now2 authOk2 (some e) (some o) (some (JSVal.str id))).response =
      Response.failure 400 "OTP not found. Request a new OTP" := by
  have hnl : ¬ t < now := by omega
  rw [verifyOtp_success_eq st now authOk e o c id d t he ho hid hfind hotp hct hexp hnl hmatch]
  have hfind2 : getById (updateVerified st id now) id = some (markVerified now d) := by
    rw [getById_updateVerified, hfind, Option.map_some']
  refine ⟨rfl, ?_, ?_⟩
  · exact hfind2
  · exact verifyOtp_noPending_eq (updateVerified st id now) now2 authOk2 e o id
      (markVerified now d) he ho hid hfind2 (by simp [markVerified, truthy])

theorem single_use_consumption_witness :
    (verifyOtp [("u1", { emptyDoc with
        email := some (JSVal.str ("a@x.com")),
        otp := some (JSVal.str ("123456")),
        otpExpiresAt := some 300000 })] 100 true
        (some (JSVal.str ("a@x.com"))) (some (JSVal.str ("123456"))) (some (JSVal.str ("u1")))).response =
      Response.success ("Email verified successfully") (some (JSVal.str ("a@x.com"), JSVal.str ("u1"))) ∧
    getById (verifyOtp [("u1", { emptyDoc with
        email := some (JSVal.str ("a@x.com")),
        otp := some (JSVal.str ("123456")),
        otpExpiresAt := some 300000 })] 100 true
        (some (JSVal.str ("a@x.com"))) (some (JSVal.str ("123456"))) (some (JSVal.str ("u1")))).store ("u1") =
      some { { emptyDoc with
        email := some (JSVal.str ("a@x.com")),
        otp := some (JSVal.str ("123456")),
        otpExpiresAt := some 300000 } with
        emailVerified := some true,
        otp := none,
        otpExpiresAt := none,
        verifiedAt := some 100 } ∧
    (verifyOtp (verifyOtp [("u1", { emptyDoc with
        email := some (JSVal.str ("a@x.com")),
        otp := some (JSVal.str ("123456")),
        otpExpiresAt := some 300000 })] 100 true
        (some (JSVal.str ("a@x.com"))) (some (JSVal.str ("123456"))) (some (JSVal.str ("u1")))).store
        999999 false
        (some (JSVal.str ("a@x.com"))) (some (JSVal.str ("123456"))) (some (JSVal.str ("u1")))).response =
      Response.failure 400 "OTP not found. Request a new OTP" :=
  single_use_consumption _ 100 999999 true false
    (JSVal.str ("a@x.com")) (JSVal.str ("123456")) (JSVal.str ("123456")) "u1" _ 300000
    (by decide) (by decide) (by decide) (by decide) rfl (by decide) rfl (by decide) rfl

/-- Claim C2 (code evaluation at the failing input): an issue request with valid
`email` and `otp` and no `uid`, against a store containing a user record with
that email, returns the 500 delivery-of-store failure (the SDK throws on
`doc(undefined)`) and persists nothing — the email-lookup branch of line 73
can never run, so the pending code is not recorded on the record found by
email. -/
theorem email_only_issuance_bug :
    (sendOtp [("u1", { emptyDoc with email := some (JSVal.str ("a@x.com")) })] 0 none
        (some (JSVal.str ("a@x.com"))) (some (JSVal.str ("123456"))) none) =
      { response := Response.failure 500 ("Failed to send OTP. " ++ docPathErr),
        store := [("u1", { emptyDoc with email := some (JSVal.str ("a@x.com")) })],
        effects := [Effect.emailSend ("a@x.com") "123456"] } := by
  decide

/-- Claim C3 (code evaluation at the failing input): an issue request whose
identifier bundle (`uid = "ghost"`, an email matching no record) resolves to
no existing user record reports success but persists a pending code anyway:
the `set(..., {merge:true})` on line 81 creates a brand-new document `ghost`
holding the `otp`/`otpExpiresAt` pair (the `console.warn` branch of line 83
is unreachable because `userDocRef` is always truthy). -/
theorem unresolved_issuance_bug :
    (sendOtp [] 0 none
        (some (JSVal.str ("a@x.com"))) (some (JSVal.str ("123456"))) (some (JSVal.str ("ghost")))) =
      { response := Response.success ("OTP sent successfully") none,
        store := [("ghost", { emptyDoc with
          otp := some (JSVal.str ("123456")),
          otpExpiresAt := some 300000 })],
        effects := [Effect.emailSend ("a@x.com") "123456", Effect.storeGet ("ghost"),
          Effect.storeQuery ("uid") (JSVal.str ("ghost")), Effect.storeSet ("ghost")] } := by
  decide

/-- Claim C4: resolution preference order of `verifyOtp` (lines 100-115): the
primary-key lookup is tried first and wins whenever it hits — in particular
over any record matching the `uid`-field query or the email query; when it
misses, the `uid`-field query is tried and wins; when both miss, resolution
is exactly the email query. -/
theorem resolution_preference (st : Store) (id : String) (e : JSVal) :
    (∀ d, getById st id = some d → resolveVerify st id e = some (id, d)) ∧
    (getById st id = none →
      (∀ r, queryUidEq st (JSVal.str id) = some r → resolveVerify st id e = some r) ∧
      (queryUidEq st (JSVal.str id) = none →
        resolveVerify st id e = queryEmailEq st e)) := by
  unfold resolveVerify
  refine ⟨fun d hd => by rw [hd], fun h => ⟨fun r hr => by rw [h, hr], fun h2 => by rw [h, h2]⟩⟩

/-- Claim C4 witness: a store where the primary key `u1` exists and a different
record `u2` matches the email query with a conflicting identifier: the
primary-key record is the one resolved. -/
theorem resolution_preference_witness :
    resolveVerify
      [("u1", { emptyDoc with email := some (JSVal.str ("b@x.com")) }),
       ("u2", { emptyDoc with email := some (JSVal.str ("a@x.com")) })]
      "u1" (JSVal.str ("a@x.com")) =
      some ("u1", { emptyDoc with email := some (JSVal.str ("b@x.com")) }) :=
  (resolution_preference
    [("u1", { emptyDoc with email := some (JSVal.str ("b@x.com")) }),
     ("u2", { emptyDoc with email := some (JSVal.str ("a@x.com")) })]
    "u1" (JSVal.str ("a@x.com"))).1
    { emptyDoc with email := some (JSVal.str ("b@x.com")) } (by decide)

/-- Symbolic evaluation of `verifyOtp` on the expired path: the record is
resolved by primary key, holds a truthy code and an expiry strictly in the
past. -/
theorem verifyOtp_expired_eq (st : Store) (now : Int) (authOk : Bool) (e o c : JSVal)
    (id : String) (d : UserDoc) (t : Int)
    (he : e.truthyV = true) (ho : o.truthyV = true) (hid : id ≠ "")
    (hfind : getById st id = some d) (hotp : d.otp = some c) (hct : c.truthyV = true)
    (hexp : d.otpExpiresAt = some t) (hlt : t < now) :
    verifyOtp st now authOk (some e) (some o) (some (JSVal.str id)) =
      { response := Response.failure 400 "OTP expired. Request new OTP",
        store := st, effects := [Effect.storeGet id] } := by
  have hu : (JSVal.str id).truthyV = true := by
    simp [JSVal.truthyV, isEmpty_false_of_ne id hid]
  have hdoc : docIdOf (some (JSVal.str id)) = some id := by
    simp [docIdOf, isEmpty_false_of_ne id hid]
  unfold verifyOtp
  simp [truthy, he, ho, hu, hdoc, resolveVerify, resolveVerifyEffects, hfind, hotp,
    hexp, hct, hlt]

/-- Symbolic evaluation of `verifyOtp` on the invalid-code path: the record is
resolved by primary key, holds a truthy unexpired code whose string form
differs from the submitted one's. -/
theorem verifyOtp_invalid_eq (st : Store) (now : Int) (authOk : Bool) (e o c : JSVal)
    (id : String) (d : UserDoc) (t : Int)
    (he : e.truthyV = true) (ho : o.truthyV = true) (hid : id ≠ "")
    (hfind : getById st id = some d) (hotp : d.otp = some c) (hct : c.truthyV = true)
    (hexp : d.otpExpiresAt = some t) (hnl : ¬ t < now)
    (hne : c.jsToString ≠ o.jsToString) :
    verifyOtp st now authOk (some e) (some o) (some (JSVal.str id)) =
      { response := Response.failure 400 "Invalid OTP",
        store := st, effects := [Effect.storeGet id] } := by
  have hu : (JSVal.str id).truthyV = true := by
    simp [JSVal.truthyV, isEmpty_false_of_ne id hid]
  have hdoc : docIdOf (some (JSVal.str id)) = some id := by
    simp [docIdOf, isEmpty_false_of_ne id hid]
  unfold verifyOtp
  simp [truthy, he, ho, hu, hdoc, resolveVerify, resolveVerifyEffects, hfind, hotp,
    hexp, hct, hnl, hne]

/-- Claim C5 counterexample: at the attempt time exactly equal to `otpExpiresAt`
(now is not strictly before the stored expiry), a matching code does NOT fail
with the expired error — it verifies successfully, because line 129 uses the
strict comparison `new Date() > expiryDate`. -/
theorem expiry_boundary_counterexample :
    (verifyOtp [("u1", { emptyDoc with
        otp := some (JSVal.str ("123456")), otpExpiresAt := some 300000 })]
        300000 true (some (JSVal.str ("a@x.com"))) (some (JSVal.str ("123456")))
        (some (JSVal.str ("u1")))).response ≠
      Response.failure 400 "OTP expired. Request new OTP" ∧
    (verifyOtp [("u1", { emptyDoc with
        otp := some (JSVal.str ("123456")), otpExpiresAt := some 300000 })]
        300000 true (some (JSVal.str ("a@x.com"))) (some (JSVal.str ("123456")))
        (some (JSVal.str ("u1")))).response =
      Response.success ("Email verified successfully")
        (some (JSVal.str ("a@x.com"), JSVal.str ("u1"))) := by
  decide

/-- Claim C5 (amended): for a record resolved by primary key holding a truthy
pending code and an expiry `t`, the attempt fails with the expired error
exactly when the current time is strictly AFTER `t` (so even a matching code
fails then); at any time up to and including `t` the attempt does not fail
as expired. -/
theorem expiry_boundary_amended (st : Store) (now : Int) (authOk : Bool)
    (e o c : JSVal) (id : String) (d : UserDoc) (t : Int)
    (he : e.truthyV = true) (ho : o.truthyV = true) (hid : id ≠ "")
    (hfind : getById st id = some d) (hotp : d.otp = some c) (hct : c.truthyV = true)
    (hexp : d.otpExpiresAt = some t) :
    (verifyOtp st now authOk (some e) (some o) (some (JSVal.str id))).response =
      Response.failure 400 "OTP expired. Request new OTP" ↔ t < now := by
  constructor
  · intro h
    by_contra hnl
    by_cases hm : c.jsToString = o.jsToString
    · rw [verifyOtp_success_eq st now authOk e o c id d t he ho hid hfind hotp hct hexp hnl hm] at h
      exact Response.noConfusion h
    · rw [verifyOtp_invalid_eq st now authOk e o c id d t he ho hid hfind hotp hct hexp hnl hm] at h
      have := Response.failure.inj h
      simp at this
  · intro hlt
    rw [verifyOtp_expired_eq st now authOk e o c id d t he ho hid hfind hotp hct hexp hlt]

/-- Claim C5 witness: one millisecond after the expiry, a matching code fails as
expired. -/
theorem expiry_boundary_amended_witness :
    (verifyOtp [("u1", { emptyDoc with
        otp := some (JSVal.str ("123456")), otpExpiresAt := some 300000 })]
        300001 true (some (JSVal.str ("a@x.com"))) (some (JSVal.str ("123456")))
        (some (JSVal.str ("u1")))).response =
      Response.failure 400 "OTP expired. Request new OTP" :=
  (expiry_boundary_amended _ 300001 true (JSVal.str ("a@x.com")) (JSVal.str ("123456"))
    (JSVal.str ("123456")) "u1"
    { emptyDoc with otp := some (JSVal.str ("123456")), otpExpiresAt := some 300000 } 300000
    (by decide) (by decide) (by decide) (by decide) rfl (by decide) rfl).mpr (by decide)

/-- Claim C6: verification atomicity on failure: whenever `verifyOtp` answers any
failure envelope (missing fields, user not found, no pending OTP, no expiry,
expired, invalid code, or the thrown-path 500), the store is returned
unmutated and the envelope carries a non-empty human-readable message. -/
theorem verify_failure_no_mutation (st : Store) (now : Int) (authOk : Bool)
    (email otp uid : Option JSVal) (s : Nat) (m : String)
    (h : (verifyOtp st now authOk email otp uid).response = Response.failure s m) :
    (verifyOtp st now authOk email otp uid).store = st ∧ m ≠ "" := by
  simp only [verifyOtp] at h ⊢
  repeat' split
  all_goals simp_all [docPathErr]
  all_goals (rcases h with ⟨h1, h2⟩; subst h2; decide)

theorem verify_failure_no_mutation_witness :
    (verifyOtp [] 0 true (some (JSVal.str ("a@x.com"))) (some (JSVal.str ("123456")))
        (some (JSVal.str ("u1")))).store = ([] : Store) ∧
    "User not found in Firestore" ≠ "" :=
  verify_failure_no_mutation [] 0 true (some (JSVal.str ("a@x.com")))
    (some (JSVal.str ("123456"))) (some (JSVal.str ("u1")))
    400 "User not found in Firestore" (by decide)

/-- Claim C7: delivery failure aborts issuance: when `transporter.sendMail` throws
(and the request had truthy `email` and `otp`), `sendOtp` answers the 500
delivery-error envelope, returns the store unchanged, and its effect trace is
exactly the attempted email send — no store read, query or write occurs. -/
theorem delivery_failure_aborts (st : Store) (now : Int) (msg : String)
    (email otp uid : Option JSVal)
    (he : truthy email = true) (ho : truthy otp = true) :
    sendOtp st now (some msg) email otp uid =
      { response := Response.failure 500 ("Failed to send OTP. " ++ msg),
        store := st,
        effects := [Effect.emailSend (email.getD (JSVal.str (""))).jsToString
          (otp.getD (JSVal.str (""))).jsToString] } := by
  unfold sendOtp
  simp [he, ho]

theorem delivery_failure_aborts_witness :
    sendOtp [("u1", emptyDoc)] 0 (some ("smtp down"))
        (some (JSVal.str ("a@x.com"))) (some (JSVal.str ("123456"))) (some (JSVal.str ("u1"))) =
      { response := Response.failure 500 ("Failed to send OTP. " ++ "smtp down"),
        store := [("u1", emptyDoc)],
        effects := [Effect.emailSend ("a@x.com") "123456"] } :=
  delivery_failure_aborts [("u1", emptyDoc)] 0 "smtp down"
    (some (JSVal.str ("a@x.com"))) (some (JSVal.str ("123456"))) (some (JSVal.str ("u1")))
    (by decide) (by decide)

/-- Claim C8: best-effort identity-provider update: the caller-visible response and
the resulting store of `verifyOtp` are identical whether
`admin.auth().updateUser` succeeds or throws (the throw is caught and only
logged), and every success response echoes the fixed message together with
the submitted email and account identifier. -/
theorem auth_update_best_effort (st : Store) (now : Int)
    (email otp uid : Option JSVal) :
    (verifyOtp st now false email otp uid).response =
      (verifyOtp st now true email otp uid).response ∧
    (verifyOtp st now false email otp uid).store =
      (verifyOtp st now true email otp uid).store ∧
    (∀ m usr, (verifyOtp st now false email otp uid).response = Response.success m usr →
      m = "Email verified successfully" ∧
      usr = some (email.getD (JSVal.str ("")), uid.getD (JSVal.str ("")))) := by
  simp only [verifyOtp]
  repeat' split
  all_goals simp_all

theorem auth_update_best_effort_witness :
    "Email verified successfully" = "Email verified successfully" ∧
    (some (JSVal.str ("a@x.com"), JSVal.str ("u1")) : Option (JSVal × JSVal)) =
      some (JSVal.str ("a@x.com"), JSVal.str ("u1")) :=
  (auth_update_best_effort
      [("u1", { emptyDoc with otp := some (JSVal.str ("123456")), otpExpiresAt := some 300000 })]
      100 (some (JSVal.str ("a@x.com"))) (some (JSVal.str ("123456"))) (some (JSVal.str ("u1")))).2.2
    "Email verified successfully" (some (JSVal.str ("a@x.com"), JSVal.str ("u1"))) (by decide)

/-- The `otp`/`otpExpiresAt` pairing invariant on a document: both fields
present or both absent. -/
def pairOk (d : UserDoc) : Bool := d.otp.isSome == d.otpExpiresAt.isSome

theorem pairOk_mapAt (st : Store) (id : String) (f : UserDoc → UserDoc)
    (hf : ∀ d, pairOk (f d) = true)
    (hst : ∀ p ∈ st, pairOk p.2 = true) :
    ∀ p ∈ mapAt st id f, pairOk p.2 = true := by
  intro p hp
  obtain ⟨q, hq, hgq⟩ := List.mem_map.mp hp
  by_cases hqid : (q.1 == id) = true
  · rw [if_pos hqid] at hgq
    rw [← hgq]
    exact hf q.2
  · rw [if_neg hqid] at hgq
    rw [← hgq]
    exact hst q hq

theorem pairOk_setMergeOtp (st : Store) (id : String) (c : String) (t : Int)
    (hst : ∀ p ∈ st, pairOk p.2 = true) :
    ∀ p ∈ setMergeOtp st id c t, pairOk p.2 = true := by
  intro p hp
  unfold setMergeOtp at hp
  by_cases h : (getById st id).isSome = true
  · rw [if_pos h] at hp
    exact pairOk_mapAt st id _ (fun d => by simp [pairOk, mergeOtpInto]) hst p hp
  · rw [if_neg h] at hp
    rcases List.mem_append.mp hp with h1 | h2
    · exact hst p h1
    · rw [List.mem_singleton.mp h2]
      simp [pairOk, mergeOtpInto, emptyDoc]

theorem pairOk_updateVerified (st : Store) (id : String) (now : Int)
    (hst : ∀ p ∈ st, pairOk p.2 = true) :
    ∀ p ∈ updateVerified st id now, pairOk p.2 = true :=
  pairOk_mapAt st id _ (fun d => by simp [pairOk, markVerified]) hst

/-- Every store `sendOtp` can return is either the input store or a single
otp-pair merge into it. -/
theorem sendOtp_store_shape (st : Store) (now : Int) (mailErr : Option String)
    (email otp uid : Option JSVal) :
    (sendOtp st now mailErr email otp uid).store = st ∨
    ∃ id, (sendOtp st now mailErr email otp uid).store =
      setMergeOtp st id ((otp.getD (JSVal.str (""))).jsToString) (now + otpTtlMillis) := by
  simp only [sendOtp]
  repeat' split
  all_goals first
    | exact Or.inl rfl
    | exact Or.inr ⟨_, rfl⟩

/-- Every store `verifyOtp` can return is either the input store or a single
verified-update of one of its documents. -/
theorem verifyOtp_store_shape (st : Store) (now : Int) (authOk : Bool)
    (email otp uid : Option JSVal) :
    (verifyOtp st now authOk email otp uid).store = st ∨
    ∃ id, (verifyOtp st now authOk email otp uid).store = updateVerified st id now := by
  simp only [verifyOtp]
  repeat' split
  all_goals first
    | exact Or.inl rfl
    | exact Or.inr ⟨_, rfl⟩

/-- Claim C9: pairing invariant: issuance writes `otp` and `otpExpiresAt` together
in its one merge and successful verification deletes both in its one update,
so if every document of the store satisfies the pairing invariant, every
document still satisfies it after any `sendOtp` request and after any
`verifyOtp` request. -/
theorem otp_pair_invariant (st : Store) (now : Int) (mailErr : Option String)
    (authOk : Bool) (email otp uid : Option JSVal)
    (hst : ∀ p ∈ st, pairOk p.2 = true) :
    (∀ p ∈ (sendOtp st now mailErr email otp uid).store, pairOk p.2 = true) ∧
    (∀ p ∈ (verifyOtp st now authOk email otp uid).store, pairOk p.2 = true) := by
  constructor
  · rcases sendOtp_store_shape st now mailErr email otp uid with h | ⟨id, h⟩
    · rw [h]; exact hst
    · rw [h]; exact pairOk_setMergeOtp st id _ _ hst
  · rcases verifyOtp_store_shape st now authOk email otp uid with h | ⟨id, h⟩
    · rw [h]; exact hst
    · rw [h]; exact pairOk_updateVerified st id now hst

theorem otp_pair_invariant_witness :
    (∀ p ∈ (sendOtp [("u1", { emptyDoc with email := some (JSVal.str ("a@x.com")) })] 0 none
        (some (JSVal.str ("a@x.com"))) (some (JSVal.str ("123456")))
        (some (JSVal.str ("u1")))).store, pairOk p.2 = true) ∧
    (∀ p ∈ (verifyOtp [("u1", { emptyDoc with email := some (JSVal.str ("a@x.com")) })] 0 true
        (some (JSVal.str ("a@x.com"))) (some (JSVal.str ("123456")))
        (some (JSVal.str ("u1")))).store, pairOk p.2 = true) :=
  otp_pair_invariant [("u1", { emptyDoc with email := some (JSVal.str ("a@x.com")) })]
    0 none true (some (JSVal.str ("a@x.com"))) (some (JSVal.str ("123456")))
    (some (JSVal.str ("u1"))) (by decide)

/-- Symbolic evaluation of `sendOtp` on the delivered, primary-key-resolved
path. -/
theorem sendOtp_pk_eq (st : Store) (now : Int) (e o : JSVal) (id : String) (d : UserDoc)
    (he : e.truthyV = true) (ho : o.truthyV = true) (hid : id ≠ "")
    (hfind : getById st id = some d) :
    sendOtp st now none (some e) (some o) (some (JSVal.str id)) =
      { response := Response.success ("OTP sent successfully") none,
        store := setMergeOtp st id o.jsToString (now + otpTtlMillis),
        effects := [Effect.emailSend e.jsToString o.jsToString,
          Effect.storeGet id, Effect.storeSet id] } := by
  unfold sendOtp
  simp [truthy, he, ho, docIdOf, isEmpty_false_of_ne id hid, hfind]

/-- Claim C10: implicit otp string coercion.  Issuance persists
`otp.toString()` — the document resolved by primary key gains the pending
code as the submitted value's string form — and verification compares
`storedOtp.toString()` with the submitted value's string form, so for a
record with a truthy unexpired stored code, verification succeeds exactly
when the two string forms agree (in particular a submitted JSON number
matches a stored string of the same digits). -/
theorem otp_string_coercion (st : Store) (now : Int) (authOk : Bool)
    (e o c : JSVal) (id : String) (d : UserDoc) (t : Int)
    (he : e.truthyV = true) (ho : o.truthyV = true) (hid : id ≠ "")
    (hfind : getById st id = some d) :
    getById (sendOtp st now none (some e) (some o) (some (JSVal.str id))).store id =
      some { d with
        otp := some (JSVal.str o.jsToString),
        otpExpiresAt := some (now + otpTtlMillis) } ∧
    (d.otp = some c → c.truthyV = true → d.otpExpiresAt = some t → ¬ t < now →
      ((verifyOtp st now authOk (some e) (some o) (some (JSVal.str id))).response =
          Response.success ("Email verified successfully") (some (e, JSVal.str id)) ↔
        c.jsToString = o.jsToString)) := by
  constructor
  · rw [sendOtp_pk_eq st now e o id d he ho hid hfind]
    exact getById_setMergeOtp st id o.jsToString (now + otpTtlMillis) d hfind
  · intro hotp hct hexp hnl
    constructor
    · intro h
      by_contra hne
      rw [verifyOtp_invalid_eq st now authOk e o c id d t he ho hid hfind hotp hct hexp hnl hne] at h
      exact Response.noConfusion h
    · intro hm
      rw [verifyOtp_success_eq st now authOk e o c id d t he ho hid hfind hotp hct hexp hnl hm]

theorem otp_string_coercion_witness :
    getById (sendOtp [("u1", { emptyDoc with email := some (JSVal.str ("a@x.com")) })] 0 none
        (some (JSVal.str ("a@x.com"))) (some (JSVal.num 123456)) (some (JSVal.str ("u1")))).store ("u1") =
      some { { emptyDoc with email := some (JSVal.str ("a@x.com")) } with
        otp := some (JSVal.str ((JSVal.num 123456).jsToString)),
        otpExpiresAt := some (0 + otpTtlMillis) } ∧
    (verifyOtp [("u1", { emptyDoc with
        email := some (JSVal.str ("a@x.com")),
        otp := some (JSVal.str ("123456")),
        otpExpiresAt := some 300000 })] 100 true
        (some (JSVal.str ("a@x.com"))) (some (JSVal.num 123456)) (some (JSVal.str ("u1")))).response =
      Response.success ("Email verified successfully") (some (JSVal.str ("a@x.com"), JSVal.str ("u1"))) :=
  ⟨(otp_string_coercion [("u1", { emptyDoc with email := some (JSVal.str ("a@x.com")) })]
      0 true (JSVal.str ("a@x.com")) (JSVal.num 123456) (JSVal.str ("123456")) "u1"
      { emptyDoc with email := some (JSVal.str ("a@x.com")) } 300000
      (by decide) (by decide) (by decide) (by decide)).1,
   ((otp_string_coercion [("u1", { emptyDoc with
        email := some (JSVal.str ("a@x.com")),
        otp := some (JSVal.str ("123456")),
        otpExpiresAt := some 300000 })]
      100 true (JSVal.str ("a@x.com")) (JSVal.num 123456) (JSVal.str ("123456")) "u1"
      { emptyDoc with
        email := some (JSVal.str ("a@x.com")),
        otp := some (JSVal.str ("123456")),
        otpExpiresAt := some 300000 } 300000
      (by decide) (by decide) (by decide) (by decide)).2 rfl (by decide) rfl
      (by decide)).mpr (by decide)⟩
